import Mathlib

/-!
Shallow embedding of `src/rest/connector/libs/nso/implementation.py`:
the NSO REST `Implementation` class (connect / disconnect / get / post /
patch / put / delete) and the string utilities it relies on.

The HTTP transport (`requests`) is modelled as an oracle: each operation
receives the `Response` the device would return and produces a
`StepResult` holding the raised error (if any), the post-state of the
client object, and the trace of HTTP requests issued on the wire.
-/

namespace Nso

/-! ### String utilities (executable models of the Python primitives used) -/

/-- Model of `list.startswith`-style char-list matching: does `l` start with `pat`? -/
def startsWithChars : List Char → List Char → Bool
  | [], _ => true
  | _ :: _, [] => false
  | a :: as, b :: bs => a == b && startsWithChars as bs

/-- Does `l` contain `pat` as a contiguous sub-list? -/
def hasSubChars (pat : List Char) : List Char → Bool
  | [] => startsWithChars pat []
  | c :: cs => startsWithChars pat (c :: cs) || hasSubChars pat cs

/-- Model of Python's `pat in s` substring test. -/
def containsSubstr (s pat : String) : Bool :=
  hasSubChars pat.toList s.toList

/-- Model of Python's `s.startswith(p)` / `re.match(p, s) is not None` for a literal `p`. -/
def strStartsWith (s p : String) : Bool :=
  startsWithChars p.toList s.toList

/-- Model of Python's `str.lstrip()` (leading-whitespace removal). -/
def lstrip (s : String) : String :=
  String.mk (s.toList.dropWhile Char.isWhitespace)

/-- Model of Python's `str.lower()` for the ASCII strings used here. -/
def strToLower (s : String) : String :=
  String.mk (s.toList.map Char.toLower)

/-- Join a list of strings with a separator (model of `str.join`). -/
def joinSep (sep : String) : List String → String
  | [] => ""
  | [s] => s
  | s :: rest => s ++ sep ++ joinSep sep rest

/-! ### IP address parsing and formatting

Executable model of the parts of Python's `ipaddress` module used by
`connect`: `ip_address(str)` for dotted-quad IPv4 and standard IPv6
text (without embedded-IPv4 tails or zone indices, which the claims do
not exercise), and the `.exploded` property of the resulting objects. -/

/-- An IP address object (`IPv4Address` / `IPv6Address`): four octets, or eight
16-bit groups. -/
inductive IpAddr where
  | v4 (a b c d : Nat)
  | v6 (groups : List Nat)
deriving Repr, DecidableEq

/-- Split a char list on a single separator character. -/
def splitOnChar (sep : Char) : List Char → List (List Char)
  | [] => [[]]
  | c :: cs =>
    let rest := splitOnChar sep cs
    if c == sep then [] :: rest
    else
      match rest with
      | r :: rs => (c :: r) :: rs
      | [] => [[c]]

/-- Split a char list on each occurrence of the two-char separator `::`. -/
def splitOnDoubleColon : List Char → List (List Char)
  | ':' :: ':' :: rest => [] :: splitOnDoubleColon rest
  | c :: cs =>
    match splitOnDoubleColon cs with
    | r :: rs => (c :: r) :: rs
    | [] => [[c]]
  | [] => [[]]

/-- Value of a single hex digit, or `none`. -/
def hexDigitVal (c : Char) : Option Nat :=
  if '0' ≤ c ∧ c ≤ '9' then some (c.toNat - 48)
  else if 'a' ≤ c ∧ c ≤ 'f' then some (c.toNat - 87)
  else if 'A' ≤ c ∧ c ≤ 'F' then some (c.toNat - 55)
  else none

/-- Parse one IPv6 group: 1 to 4 hex digits. -/
def parseHexGroup (cs : List Char) : Option Nat :=
  if cs.length == 0 || cs.length > 4 then none
  else cs.foldl (fun acc c => acc.bind (fun n => (hexDigitVal c).map (fun d => n * 16 + d))) (some 0)

/-- Parse every group of a `:`-separated run, failing if any group is invalid. -/
def parseHexGroups : List (List Char) → Option (List Nat)
  | [] => some []
  | g :: gs =>
    match parseHexGroup g, parseHexGroups gs with
    | some n, some ns => some (n :: ns)
    | _, _ => none

/-- Parse IPv6 text into its eight 16-bit groups (model of `IPv6Address(str)`). -/
def parseIPv6 (s : String) : Option (List Nat) :=
  match splitOnDoubleColon s.toList with
  | [whole] =>
    let parts := splitOnChar ':' whole
    if parts.length == 8 then parseHexGroups parts else none
  | [l, r] =>
    let lp := if l.isEmpty then [] else splitOnChar ':' l
    let rp := if r.isEmpty then [] else splitOnChar ':' r
    if lp.length + rp.length ≤ 7 then
      match parseHexGroups lp, parseHexGroups rp with
      | some lg, some rg =>
        some (lg ++ List.replicate (8 - (lg.length + rg.length)) 0 ++ rg)
      | _, _ => none
    else none
  | _ => none

/-- Parse a decimal IPv4 octet (1-3 digits, no leading zero, ≤ 255). -/
def parseDecOctet (cs : List Char) : Option Nat :=
  if cs.length == 0 || cs.length > 3 then none
  else if !(cs.all Char.isDigit) then none
  else if cs.length > 1 && cs.headD ' ' == '0' then none
  else
    let n := cs.foldl (fun acc c => acc * 10 + (c.toNat - 48)) 0
    if n ≤ 255 then some n else none

/-- Parse dotted-quad IPv4 text (model of `IPv4Address(str)`). -/
def parseIPv4 (s : String) : Option (Nat × Nat × Nat × Nat) :=
  match (splitOnChar '.' s.toList).map parseDecOctet with
  | [some a, some b, some c, some d] => some (a, b, c, d)
  | _ => none

/-- Model of Python's `ipaddress.ip_address(str)`: try IPv4, then IPv6. -/
def ip_address (s : String) : Option IpAddr :=
  match parseIPv4 s with
  | some (a, b, c, d) => some (.v4 a b c d)
  | none => (parseIPv6 s).map .v6

/-- Lowercase hex digit character for a value < 16. -/
def hexDigitChar (n : Nat) : Char :=
  if n < 10 then Char.ofNat (48 + n) else Char.ofNat (87 + n)

/-- A 16-bit group rendered as exactly four lowercase hex digits. -/
def toHex4 (n : Nat) : String :=
  String.mk [hexDigitChar (n / 4096 % 16), hexDigitChar (n / 256 % 16),
             hexDigitChar (n / 16 % 16), hexDigitChar (n % 16)]

/-- Model of `IPv6Address.exploded`: eight full four-digit groups joined by `:`. -/
def ipv6Exploded (gs : List Nat) : String :=
  joinSep ":" (gs.map toHex4)

/-- Model of `IPv4Address.exploded`: the dotted-quad form. -/
def ipv4Exploded (a b c d : Nat) : String :=
  toString a ++ "." ++ toString b ++ "." ++ toString c ++ "." ++ toString d

/-! ### Payload serialization (models of external libraries) -/

/-- A request payload: either a raw string or a structured mapping
(Python `dict`; modelled as a flat string-to-string association list,
which is all the claims need). -/
inductive Payload where
  | str (s : String)
  | dict (d : List (String × String))
deriving Repr, DecidableEq

/-- Model of `json.dumps` on a flat string-valued dict (no escaping needed
for the inputs considered). -/
def jsonDumps (d : List (String × String)) : String :=
  "\x7b" ++ joinSep ", " (d.map (fun kv => "\"" ++ kv.1 ++ "\": \"" ++ kv.2 ++ "\"")) ++ "\x7d"

/-- Model of the external `dict2xml` converter on a flat string-valued dict. -/
def dict2xml (d : List (String × String)) : String :=
  joinSep "\n" (d.map (fun kv => "<" ++ kv.1 ++ ">" ++ kv.2 ++ "</" ++ kv.1 ++ ">"))

/-! ### Client state, requests, responses, errors -/

/-- An HTTP response from the device (transport oracle). -/
structure Response where
  status : Nat
  text : String
deriving Repr, DecidableEq

/-- One HTTP request issued on the wire. -/
structure Request where
  method : String
  url : String
  headers : List (String × String)
  body : Option Payload
deriving Repr, DecidableEq

/-- Errors raised by the implementation. Constructors carry the data the
Python code formats into the exception message. -/
inductive RestError where
  /-- `Exception("'{d}' is not connected for alias '{a}'")` -/
  | notConnected (device al : String)
  /-- `RequestException` raised by `connect` when the probe status differs
  from `requests.codes.ok`; carries host, port, actual and expected code. -/
  | connectStatus (host port : String) (actual expected : Nat)
  /-- `RequestException` raised by a verb helper on an unexpected status;
  carries device name, actual code, expected set and response body. -/
  | unexpectedStatus (device : String) (actual : Nat) (expected : List Nat) (body : String)
  /-- `AssertionError` from `assert content_type != None, ...`. -/
  | assertionError (msg : String)
  /-- `KeyError` from `self.connection_info['ip']` when neither key exists. -/
  | keyError (k : String)
  /-- `ValueError` from `ip_address` on unparsable text. -/
  | addressValueError (s : String)
  /-- An error propagating out of `session.close()`. -/
  | transportError (msg : String)
deriving Repr, DecidableEq

/-- The connection configuration (`self.connection_info`). The model covers
direct connections: the `sshtunnel` key (an out-of-scope collaborator) is
absent, which is the configuration all claims concern. -/
structure ConnectionInfo where
  host : Option String
  ip : Option String
  port : Option String
  protocol : Option String
deriving Repr, DecidableEq

/-- The mutable state of an `Implementation` object. `_is_connected` backs
the `connected` property of the base class; `sessionHeaders` is the
mutable header mapping of the `requests.Session`. -/
structure Client where
  deviceName : String
  al : String
  connectionInfo : ConnectionInfo
  _is_connected : Bool
  content_type : String
  base_url : String
  sessionHeaders : List (String × String)
deriving Repr, DecidableEq

/-- The `connected` property of the base `Implementation` class (returns the
`_is_connected` flag). -/
def Client.connected (c : Client) : Bool :=
  c._is_connected

/-- Result of one public operation: the error raised (if any), the
post-state of the client object (Python mutates `self` in place, so the
post-state is meaningful on error paths too), and the HTTP requests issued. -/
structure StepResult where
  error : Option RestError
  client : Client
  trace : List Request
deriving Repr, DecidableEq

/-- `session.headers.update` with a single key: replace if present, else append. -/
def updateHeader (hs : List (String × String)) (k v : String) : List (String × String) :=
  if hs.any (fun p => p.1 == k) then hs.map (fun p => if p.1 == k then (k, v) else p)
  else hs ++ [(k, v)]

/-- `session.headers.update(dict)`: apply each key-value pair in order. -/
def updateHeaders (hs : List (String × String)) : List (String × String) → List (String × String)
  | [] => hs
  | (k, v) :: rest => updateHeaders (updateHeader hs k v) rest

/-- Look a header up in a header mapping. -/
def getHeader (hs : List (String × String)) (k : String) : Option String :=
  (hs.find? (fun p => p.1 == k)).map (fun p => p.2)

/-! ### The Implementation methods -/

namespace Implementation

/-- Host resolution inside `connect` (the non-sshtunnel branch, lines
112-123): prefer `connection_info['host']` verbatim; else parse
`connection_info['ip']` with `ip_address` and format it — exploded IPv6
wrapped in `[...]`, exploded (dotted) IPv4 otherwise. -/
def resolveHost (ci : ConnectionInfo) : Except RestError String :=
  match ci.host with
  | some h => .ok h
  | none =>
    match ci.ip with
    | none => .error (.keyError "ip")
    | some ipStr =>
      match ip_address ipStr with
      | none => .error (.addressValueError ipStr)
      | some (.v4 a b c d) => .ok (ipv4Exploded a b c d)
      | some (.v6 gs) => .ok ("[" ++ ipv6Exploded gs ++ "]")

/-- The `Accept` header template shared by get/post/patch/put
(`application/vnd.yang.data+{fmt}, application/vnd.yang.collection+{fmt},
application/vnd.yang.datastore+{fmt}`). -/
def acceptHeaderFor (fmt : String) : String :=
  "application/vnd.yang.data+" ++ fmt ++ ", application/vnd.yang.collection+" ++ fmt ++
    ", application/vnd.yang.datastore+" ++ fmt

/-- `Implementation.connect` (lines 55-163). `resp` is the transport's
response to the probe GET on `{base_url}/api`. Positional arguments carry
the Python defaults `port='8080'`, `protocol='http'`,
`default_content_type='json'`. -/
def connect (c : Client) (resp : Response) (port protocol default_content_type : String) :
    StepResult :=
  if c.connected then
    { error := none, client := c, trace := [] }
  else
    let c := { c with content_type := default_content_type }
    match resolveHost c.connectionInfo with
    | .error e => { error := some e, client := c, trace := [] }
    | .ok host =>
      let port := c.connectionInfo.port.getD port
      let protocol :=
        match c.connectionInfo.protocol with
        | some p => p
        | none => protocol
      let base_url := protocol ++ "://" ++ host ++ ":" ++ port
      let login_url := base_url ++ "/api"
      let c := { c with base_url := base_url, sessionHeaders := [] }
      let req : Request := { method := "GET", url := login_url, headers := [], body := none }
      if resp.status != 200 then
        { error := some (.connectStatus host port resp.status 200), client := c, trace := [req] }
      else
        { error := none, client := { c with _is_connected := true }, trace := [req] }

/-- `Implementation.disconnect` (lines 166-177): `session.close()` inside a
`try/finally` that clears `_is_connected`. `closeFails` says whether the
close raises; the raised error propagates after the `finally` block runs. -/
def disconnect (c : Client) (closeFails : Bool) : StepResult :=
  let c := { c with _is_connected := false }
  if closeFails then
    { error := some (.transportError "session.close"), client := c, trace := [] }
  else
    { error := none, client := c, trace := [] }

/-- `Implementation.get` (lines 180-244). Python defaults:
`expected_status_codes=(204, 200)`. -/
def get (c : Client) (api_url : String) (content_type : Option String)
    (headers : Option (List (String × String))) (expected_status_codes : List Nat)
    (resp : Response) : StepResult :=
  if !c.connected then
    { error := some (.notConnected c.deviceName c.al), client := c, trace := [] }
  else
    let ct := content_type.getD c.content_type
    let full_url := c.base_url ++ api_url
    let accept_header :=
      if strToLower ct == "json" then acceptHeaderFor "json"
      else if strToLower ct == "xml" then acceptHeaderFor "xml"
      else ct
    let hs := updateHeader c.sessionHeaders "Accept" accept_header
    let hs :=
      match headers with
      | some h => updateHeaders hs h
      | none => hs
    let c := { c with sessionHeaders := hs }
    let req : Request := { method := "GET", url := full_url, headers := hs, body := none }
    if !(expected_status_codes.contains resp.status) then
      { error := some (.unexpectedStatus c.deviceName resp.status expected_status_codes resp.text),
        client := c, trace := [req] }
    else
      { error := none, client := c, trace := [req] }

/-- Content-type sniffing used by post/patch/put when `content_type` is
omitted and the payload is a string: `re.match("<", payload.lstrip())`. -/
def sniffContentType (s : String) : String :=
  if strStartsWith (lstrip s) "<" then "xml" else "json"

/-- The `request_payload` computation shared by post/patch/put (e.g. lines
275-281): a dict payload is serialized only when `content_type` is exactly
`'json'` or exactly `'xml'`; otherwise it is passed through unchanged. -/
def serializePayload (payload : Payload) (content_type : Option String) : Payload :=
  match payload, content_type with
  | .dict d, some ct =>
    if ct == "json" then .str (jsonDumps d)
    else if ct == "xml" then .str (dict2xml d)
    else .dict d
  | p, _ => p

/-- Content-type resolution shared by post/patch/put (e.g. lines 283-287):
the explicit argument wins; else sniff the string payload. (The dict case
is unreachable: the assert has already fired when the payload is a dict and
`content_type` is `None`.) -/
def resolveMutatingContentType (payload : Payload) (content_type : Option String) : String :=
  match content_type with
  | some ct => ct
  | none =>
    match payload with
    | .str s => sniffContentType s
    | .dict _ => "json"

/-- The URL-shape-dependent Content-Type template of `post` (lines 298-305). -/
def postContentTypeStem (api_url : String) : String :=
  if containsSubstr api_url "/_operations" then "application/vnd.yang.operation+"
  else if containsSubstr api_url "/api/" then "application/vnd.yang.datastore+"
  else "application/vnd.yang.data+"

/-- `Implementation.post` (lines 247-351). Python defaults:
`payload=''`, `expected_status_codes=(201, 204, 200)`. -/
def post (c : Client) (api_url : String) (payload : Payload) (content_type : Option String)
    (headers : Option (List (String × String))) (expected_status_codes : List Nat)
    (resp : Response) : StepResult :=
  if !c.connected then
    { error := some (.notConnected c.deviceName c.al), client := c, trace := [] }
  else
    let full_url := c.base_url ++ api_url
    match payload, content_type with
    | .dict _, none =>
      { error := some (.assertionError "content_type parameter required when passing dict"),
        client := c, trace := [] }
    | _, _ =>
      let request_payload := serializePayload payload content_type
      let ct := resolveMutatingContentType payload content_type
      let stem := postContentTypeStem api_url
      let content_type_header :=
        if strToLower ct == "json" then stem ++ "json"
        else if strToLower ct == "xml" then stem ++ "xml"
        else ct
      let accept_header :=
        if strToLower ct == "json" then acceptHeaderFor "json"
        else if strToLower ct == "xml" then acceptHeaderFor "xml"
        else ct
      let hs := updateHeader c.sessionHeaders "Content-type" content_type_header
      let hs := updateHeader hs "Accept" accept_header
      let hs :=
        match headers with
        | some h => updateHeaders hs h
        | none => hs
      let c := { c with sessionHeaders := hs }
      let req : Request :=
        { method := "POST", url := full_url, headers := hs, body := some request_payload }
      if !(expected_status_codes.contains resp.status) then
        { error := some (.unexpectedStatus c.deviceName resp.status expected_status_codes resp.text),
          client := c, trace := [req] }
      else
        { error := none, client := c, trace := [req] }

/-- `Implementation.patch` (lines 354-441). Unlike `post`, the Content-Type
stem is the constant `application/vnd.yang.data+{fmt}` (line 396). Python
defaults: `expected_status_codes=(201, 204, 200)`. -/
def patch (c : Client) (api_url : String) (payload : Payload) (content_type : Option String)
    (headers : Option (List (String × String))) (expected_status_codes : List Nat)
    (resp : Response) : StepResult :=
  if !c.connected then
    { error := some (.notConnected c.deviceName c.al), client := c, trace := [] }
  else
    match payload, content_type with
    | .dict _, none =>
      { error := some (.assertionError "content_type parameter required when passing dict"),
        client := c, trace := [] }
    | _, _ =>
      let request_payload := serializePayload payload content_type
      let full_url := c.base_url ++ api_url
      let ct := resolveMutatingContentType payload content_type
      let content_type_header :=
        if strToLower ct == "json" then "application/vnd.yang.data+json"
        else if strToLower ct == "xml" then "application/vnd.yang.data+xml"
        else ct
      let accept_header :=
        if strToLower ct == "json" then acceptHeaderFor "json"
        else if strToLower ct == "xml" then acceptHeaderFor "xml"
        else ct
      let hs := updateHeader c.sessionHeaders "Content-type" content_type_header
      let hs := updateHeader hs "Accept" accept_header
      let hs :=
        match headers with
        | some h => updateHeaders hs h
        | none => hs
      let c := { c with sessionHeaders := hs }
      let req : Request :=
        { method := "PATCH", url := full_url, headers := hs, body := some request_payload }
      if !(expected_status_codes.contains resp.status) then
        { error := some (.unexpectedStatus c.deviceName resp.status expected_status_codes resp.text),
          client := c, trace := [req] }
      else
        { error := none, client := c, trace := [req] }

/-- `Implementation.put` (lines 444-531). Content-Type stem is the constant
`application/vnd.yang.data+{fmt}` (line 486). Python defaults:
`expected_status_codes=(201, 204, 200)`. -/
def put (c : Client) (api_url : String) (payload : Payload) (content_type : Option String)
    (headers : Option (List (String × String))) (expected_status_codes : List Nat)
    (resp : Response) : StepResult :=
  if !c.connected then
    { error := some (.notConnected c.deviceName c.al), client := c, trace := [] }
  else
    let full_url := c.base_url ++ api_url
    match payload, content_type with
    | .dict _, none =>
      { error := some (.assertionError "content_type parameter required when passing dict"),
        client := c, trace := [] }
    | _, _ =>
      let request_payload := serializePayload payload content_type
      let ct := resolveMutatingContentType payload content_type
      let content_type_header :=
        if strToLower ct == "json" then "application/vnd.yang.data+json"
        else if strToLower ct == "xml" then "application/vnd.yang.data+xml"
        else ct
      let accept_header :=
        if strToLower ct == "json" then acceptHeaderFor "json"
        else if strToLower ct == "xml" then acceptHeaderFor "xml"
        else ct
      let hs := updateHeader c.sessionHeaders "Content-type" content_type_header
      let hs := updateHeader hs "Accept" accept_header
      let hs :=
        match headers with
        | some h => updateHeaders hs h
        | none => hs
      let c := { c with sessionHeaders := hs }
      let req : Request :=
        { method := "PUT", url := full_url, headers := hs, body := some request_payload }
      if !(expected_status_codes.contains resp.status) then
        { error := some (.unexpectedStatus c.deviceName resp.status expected_status_codes resp.text),
          client := c, trace := [req] }
      else
        { error := none, client := c, trace := [req] }

/-- `Implementation.delete` (lines 534-597). Its Accept header names the
single media type `application/vnd.yang.data+{fmt}` (lines 564-567).
Python defaults: `expected_status_codes=(201, 204, 200)`. -/
def delete (c : Client) (api_url : String) (content_type : Option String)
    (headers : Option (List (String × String))) (expected_status_codes : List Nat)
    (resp : Response) : StepResult :=
  if !c.connected then
    { error := some (.notConnected c.deviceName c.al), client := c, trace := [] }
  else
    let ct := content_type.getD c.content_type
    let full_url := c.base_url ++ api_url
    let accept_header :=
      if strToLower ct == "json" then "application/vnd.yang.data+json"
      else if strToLower ct == "xml" then "application/vnd.yang.data+xml"
      else ct
    let hs := updateHeader c.sessionHeaders "Accept" accept_header
    let hs :=
      match headers with
      | some h => updateHeaders hs h
      | none => hs
    let c := { c with sessionHeaders := hs }
    let req : Request := { method := "DELETE", url := full_url, headers := hs, body := none }
    if !(expected_status_codes.contains resp.status) then
      { error := some (.unexpectedStatus c.deviceName resp.status expected_status_codes resp.text),
        client := c, trace := [req] }
    else
      { error := none, client := c, trace := [req] }

end Implementation

/-! ### Concrete example states (used to instantiate theorems) -/

/-- A direct connection configuration with a `host` key. -/
def exampleInfo : ConnectionInfo :=
  { host := some "10.0.0.1", ip := none, port := some "8080", protocol := some "http" }

/-- A freshly constructed, not-yet-connected client. -/
def cDis : Client :=
  { deviceName := "ncs", al := "rest", connectionInfo := exampleInfo,
    _is_connected := false, content_type := "json", base_url := "", sessionHeaders := [] }

/-- A client in the Connected state. -/
def cCon : Client :=
  { deviceName := "ncs", al := "rest", connectionInfo := exampleInfo,
    _is_connected := true, content_type := "json",
    base_url := "http://10.0.0.1:8080", sessionHeaders := [] }

/-- A not-yet-connected client configured with the IPv6 loopback `ip`. -/
def cV6 : Client :=
  { deviceName := "ncs", al := "rest",
    connectionInfo := { host := none, ip := some "::1", port := some "8080",
                        protocol := some "http" },
    _is_connected := false, content_type := "json", base_url := "", sessionHeaders := [] }

/-! ### Header-mapping lemmas -/

theorem getHeader_cons_pos (p : String × String) (ps : List (String × String)) (k : String)
    (h : (p.1 == k) = true) :
    getHeader (p :: ps) k = some p.2 := by
  unfold getHeader
  have hf : List.find? (fun q => q.1 == k) (p :: ps) = some p :=
    List.find?_cons_of_pos ps h
  rw [hf]
  rfl

theorem getHeader_cons_neg (p : String × String) (ps : List (String × String)) (k : String)
    (h : (p.1 == k) = false) :
    getHeader (p :: ps) k = getHeader ps k := by
  unfold getHeader
  have hf : List.find? (fun q => q.1 == k) (p :: ps) = List.find? (fun q => q.1 == k) ps :=
    List.find?_cons_of_neg ps (by simp [h])
  rw [hf]

theorem getHeader_map_replaceKey (hs : List (String × String)) (k k' v : String)
    (hkk : (k' == k) = false) :
    getHeader (hs.map (fun p => if p.1 == k' then (k', v) else p)) k = getHeader hs k := by
  induction hs with
  | nil => rfl
  | cons p ps ih =>
    rw [List.map_cons]
    by_cases hp : (p.1 == k') = true
    · have hp1 : p.1 = k' := by simpa using hp
      have hpk : (p.1 == k) = false := by simp [hp1]; simpa using hkk
      rw [if_pos hp, getHeader_cons_neg _ _ _ hkk, getHeader_cons_neg _ _ _ hpk]
      exact ih
    · have hp' : (p.1 == k') = false := by simpa using hp
      rw [if_neg (by simp [hp'])]
      by_cases hk : (p.1 == k) = true
      · rw [getHeader_cons_pos _ _ _ hk, getHeader_cons_pos _ _ _ hk]
      · have hk' : (p.1 == k) = false := by simpa using hk
        rw [getHeader_cons_neg _ _ _ hk', getHeader_cons_neg _ _ _ hk']
        exact ih

theorem getHeader_append_single_other (hs : List (String × String)) (k k' v : String)
    (hkk : (k' == k) = false) :
    getHeader (hs ++ [(k', v)]) k = getHeader hs k := by
  induction hs with
  | nil =>
    rw [List.nil_append, getHeader_cons_neg _ _ _ hkk]
  | cons p ps ih =>
    rw [List.cons_append]
    by_cases hk : (p.1 == k) = true
    · rw [getHeader_cons_pos _ _ _ hk, getHeader_cons_pos _ _ _ hk]
    · have hk' : (p.1 == k) = false := by simpa using hk
      rw [getHeader_cons_neg _ _ _ hk', getHeader_cons_neg _ _ _ hk']
      exact ih

/-- Updating one header key leaves lookups of a different key unchanged. -/
theorem getHeader_updateHeader_other (hs : List (String × String)) (k k' v : String)
    (hkk : (k' == k) = false) :
    getHeader (updateHeader hs k' v) k = getHeader hs k := by
  unfold updateHeader
  by_cases h : hs.any (fun p => p.1 == k') = true
  · rw [if_pos h]
    exact getHeader_map_replaceKey hs k k' v hkk
  · rw [if_neg h]
    exact getHeader_append_single_other hs k k' v hkk

theorem getHeader_map_replaceKey_self (hs : List (String × String)) (k v : String)
    (h : hs.any (fun p => p.1 == k) = true) :
    getHeader (hs.map (fun p => if p.1 == k then (k, v) else p)) k = some v := by
  induction hs with
  | nil => simp at h
  | cons p ps ih =>
    rw [List.map_cons]
    by_cases hp : (p.1 == k) = true
    · rw [if_pos hp, getHeader_cons_pos _ _ _ (by simp)]
    · have hp' : (p.1 == k) = false := by simpa using hp
      have hps : ps.any (fun p => p.1 == k) = true := by
        simp only [List.any_cons, hp', Bool.false_or] at h
        exact h
      rw [if_neg (by simp [hp']), getHeader_cons_neg _ _ _ hp']
      exact ih hps

theorem getHeader_append_single_self (hs : List (String × String)) (k v : String)
    (h : hs.any (fun p => p.1 == k) = false) :
    getHeader (hs ++ [(k, v)]) k = some v := by
  induction hs with
  | nil =>
    rw [List.nil_append, getHeader_cons_pos (k, v) [] k (by simp)]
  | cons p ps ih =>
    have hp : (p.1 == k) = false := by
      simp only [List.any_cons, Bool.or_eq_false_iff] at h
      exact h.1
    have hps : ps.any (fun p => p.1 == k) = false := by
      simp only [List.any_cons, Bool.or_eq_false_iff] at h
      exact h.2
    rw [List.cons_append, getHeader_cons_neg _ _ _ hp]
    exact ih hps

/-- Looking up the key just written by `updateHeader` yields the new value. -/
theorem getHeader_updateHeader_self (hs : List (String × String)) (k v : String) :
    getHeader (updateHeader hs k v) k = some v := by
  unfold updateHeader
  by_cases h : hs.any (fun p => p.1 == k) = true
  · rw [if_pos h]
    exact getHeader_map_replaceKey_self hs k v h
  · rw [if_neg h]
    exact getHeader_append_single_self hs k v (Bool.eq_false_iff.mpr h)

/-! ### Claim theorems -/

/-- C1: every request helper (get, post, patch, put, delete) called while the
client state is Disconnected fails with the 'not connected' error carrying the
device name and alias, issues no network request, and leaves the client state
unchanged. -/
theorem verbs_require_connected
    (c : Client) (api_url : String) (payload : Payload) (ct : Option String)
    (hd : Option (List (String × String))) (ex : List Nat) (resp : Response)
    (h : c.connected = false) :
    Implementation.get c api_url ct hd ex resp
      = { error := some (.notConnected c.deviceName c.al), client := c, trace := [] } ∧
    Implementation.post c api_url payload ct hd ex resp
      = { error := some (.notConnected c.deviceName c.al), client := c, trace := [] } ∧
    Implementation.patch c api_url payload ct hd ex resp
      = { error := some (.notConnected c.deviceName c.al), client := c, trace := [] } ∧
    Implementation.put c api_url payload ct hd ex resp
      = { error := some (.notConnected c.deviceName c.al), client := c, trace := [] } ∧
    Implementation.delete c api_url ct hd ex resp
      = { error := some (.notConnected c.deviceName c.al), client := c, trace := [] } := by
  refine ⟨?_, ?_, ?_, ?_, ?_⟩ <;>
    simp [Implementation.get, Implementation.post, Implementation.patch,
          Implementation.put, Implementation.delete, h]

/-- Witness for C1 at a concrete disconnected client. -/
theorem verbs_require_connected_witness :
    Implementation.get cDis "/api/running" none none [204, 200] ⟨200, ""⟩
      = { error := some (.notConnected cDis.deviceName cDis.al), client := cDis, trace := [] } :=
  (verbs_require_connected cDis "/api/running" (.str "") none none [204, 200] ⟨200, ""⟩ rfl).1

/-- C2: `connect` requires the probe status to equal 200 exactly; any other
status (201 included) raises the connection error carrying host, resolved
port, and actual vs. expected code, and the connected flag stays false. -/
theorem connect_requires_status_ok
    (c : Client) (resp : Response) (port protocol dct host : String)
    (hc : c.connected = false)
    (hh : Implementation.resolveHost c.connectionInfo = .ok host)
    (hs : resp.status ≠ 200) :
    (Implementation.connect c resp port protocol dct).error
      = some (.connectStatus host (c.connectionInfo.port.getD port) resp.status 200) ∧
    (Implementation.connect c resp port protocol dct).client.connected = false := by
  have hc' : c._is_connected = false := hc
  have hs' : (resp.status != 200) = true := by simpa using hs
  constructor <;>
    simp [Implementation.connect, hc', hh, hs', Client.connected]

/-- Witness for C2: probe status 201 rejected for a concrete client. -/
theorem connect_requires_status_ok_witness :
    (Implementation.connect cDis ⟨201, ""⟩ "8080" "http" "json").error
      = some (.connectStatus "10.0.0.1" (cDis.connectionInfo.port.getD "8080") 201 200) ∧
    (Implementation.connect cDis ⟨201, ""⟩ "8080" "http" "json").client.connected = false :=
  connect_requires_status_ok cDis ⟨201, ""⟩ "8080" "http" "json" "10.0.0.1" rfl rfl
    (by decide)

/-- C3: `disconnect` sets the state to Disconnected on every exit path of the
session close, whether or not the close raises. -/
theorem disconnect_always_disconnects (c : Client) (closeFails : Bool) :
    (Implementation.disconnect c closeFails).client.connected = false := by
  cases closeFails <;> simp [Implementation.disconnect, Client.connected]

/-- C4: `connect` while already Connected is a no-op: no error, no probe
request, and the client (state, content type, base URL, session headers)
is returned unchanged. -/
theorem connect_noop_when_connected
    (c : Client) (resp : Response) (port protocol dct : String)
    (h : c.connected = true) :
    Implementation.connect c resp port protocol dct
      = { error := none, client := c, trace := [] } := by
  simp [Implementation.connect, h]

/-- Witness for C4 at a concrete connected client. -/
theorem connect_noop_when_connected_witness :
    Implementation.connect cCon ⟨200, ""⟩ "8080" "http" "json"
      = { error := none, client := cCon, trace := [] } :=
  connect_noop_when_connected cCon ⟨200, ""⟩ "8080" "http" "json" rfl

/-- After writing Content-type and then Accept, the Content-type value is the
one written (the Accept write does not disturb it). -/
theorem getHeader_content_type_after_accept (hs : List (String × String)) (v w : String) :
    getHeader (updateHeader (updateHeader hs "Content-type" v) "Accept" w) "Content-type"
      = some v := by
  rw [getHeader_updateHeader_other _ _ _ _ (by decide)]
  exact getHeader_updateHeader_self hs _ _

/-- C5 counterexample: `patch` on a URL containing `/_operations` sends
Content-Type `application/vnd.yang.data+json`, not the
`application/vnd.yang.operation+json` the claim states for every mutating
verb. -/
theorem patch_ignores_url_shape_cex :
    (Implementation.patch cCon "/api/running/devices/_operations/connect"
        (.str "x") (some "json") none [200] ⟨200, ""⟩).trace.map
        (fun r => getHeader r.headers "Content-type")
      = [some "application/vnd.yang.data+json"] ∧
    ("application/vnd.yang.data+json" : String) ≠ "application/vnd.yang.operation+json" := by
  exact ⟨by decide, by decide⟩

/-- C5 (amended): for `post` the Content-Type request header does depend on
the URL shape (`/_operations` → operation, `/api/` → datastore, else data);
`patch` and `put` always send the constant `application/vnd.yang.data+{fmt}`
header regardless of URL shape. -/
theorem mutating_content_type_header
    (c : Client) (api_url s ct : String) (ex : List Nat) (resp : Response)
    (hc : c.connected = true)
    (hfmt : strToLower ct = "json" ∨ strToLower ct = "xml") :
    (Implementation.post c api_url (.str s) (some ct) none ex resp).trace.map
        (fun r => getHeader r.headers "Content-type")
      = [some (Implementation.postContentTypeStem api_url ++ strToLower ct)] ∧
    (Implementation.patch c api_url (.str s) (some ct) none ex resp).trace.map
        (fun r => getHeader r.headers "Content-type")
      = [some ("application/vnd.yang.data+" ++ strToLower ct)] ∧
    (Implementation.put c api_url (.str s) (some ct) none ex resp).trace.map
        (fun r => getHeader r.headers "Content-type")
      = [some ("application/vnd.yang.data+" ++ strToLower ct)] := by
  have hc' : c._is_connected = true := hc
  rcases hfmt with h | h <;>
    refine ⟨?_, ?_, ?_⟩ <;>
      by_cases hst : resp.status ∈ ex <;>
        simp [Implementation.post, Implementation.patch, Implementation.put,
              Client.connected, hc', hst, h,
              Implementation.serializePayload, Implementation.resolveMutatingContentType,
              getHeader_content_type_after_accept]

/-- Witness for C5 (amended): `post` to an `/_operations` URL. -/
theorem mutating_content_type_header_witness :
    (Implementation.post cCon "/api/running/devices/_operations/connect"
        (.str "x") (some "json") none [200] ⟨200, ""⟩).trace.map
        (fun r => getHeader r.headers "Content-type")
      = [some (Implementation.postContentTypeStem "/api/running/devices/_operations/connect"
          ++ strToLower "json")] :=
  (mutating_content_type_header cCon "/api/running/devices/_operations/connect" "x" "json"
      [200] ⟨200, ""⟩ rfl (Or.inl rfl)).1

/-- C6 counterexample: `delete` with resolved content type json sends an
Accept header naming the single media type `application/vnd.yang.data+json`,
not the three-media-type list the claim states for every request helper. -/
theorem delete_accept_single_cex :
    (Implementation.delete cCon "/api/running" (some "json") none [200] ⟨200, ""⟩).trace.map
        (fun r => getHeader r.headers "Accept")
      = [some "application/vnd.yang.data+json"] ∧
    ("application/vnd.yang.data+json" : String) ≠ Implementation.acceptHeaderFor "json" := by
  exact ⟨by decide, by decide⟩

/-- C6 (amended): with resolved content type json or xml, get, post, patch and
put send the three-media-type Accept list with the matching suffix, while
`delete` sends the single media type `application/vnd.yang.data+{fmt}`; any
other content-type string is used verbatim as the Accept value by all five
helpers. -/
theorem accept_header_negotiation
    (c : Client) (api_url s ct : String) (ex : List Nat) (resp : Response)
    (hc : c.connected = true) :
    (strToLower ct = "json" ∨ strToLower ct = "xml" →
      (Implementation.get c api_url (some ct) none ex resp).trace.map
          (fun r => getHeader r.headers "Accept")
        = [some (Implementation.acceptHeaderFor (strToLower ct))] ∧
      (Implementation.post c api_url (.str s) (some ct) none ex resp).trace.map
          (fun r => getHeader r.headers "Accept")
        = [some (Implementation.acceptHeaderFor (strToLower ct))] ∧
      (Implementation.patch c api_url (.str s) (some ct) none ex resp).trace.map
          (fun r => getHeader r.headers "Accept")
        = [some (Implementation.acceptHeaderFor (strToLower ct))] ∧
      (Implementation.put c api_url (.str s) (some ct) none ex resp).trace.map
          (fun r => getHeader r.headers "Accept")
        = [some (Implementation.acceptHeaderFor (strToLower ct))] ∧
      (Implementation.delete c api_url (some ct) none ex resp).trace.map
          (fun r => getHeader r.headers "Accept")
        = [some ("application/vnd.yang.data+" ++ strToLower ct)]) ∧
    (strToLower ct ≠ "json" → strToLower ct ≠ "xml" →
      (Implementation.get c api_url (some ct) none ex resp).trace.map
          (fun r => getHeader r.headers "Accept")
        = [some ct] ∧
      (Implementation.post c api_url (.str s) (some ct) none ex resp).trace.map
          (fun r => getHeader r.headers "Accept")
        = [some ct] ∧
      (Implementation.patch c api_url (.str s) (some ct) none ex resp).trace.map
          (fun r => getHeader r.headers "Accept")
        = [some ct] ∧
      (Implementation.put c api_url (.str s) (some ct) none ex resp).trace.map
          (fun r => getHeader r.headers "Accept")
        = [some ct] ∧
      (Implementation.delete c api_url (some ct) none ex resp).trace.map
          (fun r => getHeader r.headers "Accept")
        = [some ct]) := by
  have hc' : c._is_connected = true := hc
  constructor
  · intro hfmt
    rcases hfmt with h | h <;>
      refine ⟨?_, ?_, ?_, ?_, ?_⟩ <;>
        by_cases hst : resp.status ∈ ex <;>
          simp [Implementation.get, Implementation.post, Implementation.patch,
                Implementation.put, Implementation.delete,
                Client.connected, hc', hst, h,
                Implementation.serializePayload, Implementation.resolveMutatingContentType,
                getHeader_updateHeader_self]
  · intro h1 h2
    have b1 : (strToLower ct == "json") = false := by simpa using h1
    have b2 : (strToLower ct == "xml") = false := by simpa using h2
    refine ⟨?_, ?_, ?_, ?_, ?_⟩ <;>
      by_cases hst : resp.status ∈ ex <;>
        simp [Implementation.get, Implementation.post, Implementation.patch,
              Implementation.put, Implementation.delete,
              Client.connected, hc', hst, b1, b2,
              Implementation.serializePayload, Implementation.resolveMutatingContentType,
              getHeader_updateHeader_self]

/-- Witness for C6 (amended): `get` with content type json on a concrete
connected client. -/
theorem accept_header_negotiation_witness :
    (Implementation.get cCon "/api/running" (some "json") none [204, 200] ⟨200, ""⟩).trace.map
        (fun r => getHeader r.headers "Accept")
      = [some (Implementation.acceptHeaderFor (strToLower "json"))] :=
  ((accept_header_negotiation cCon "/api/running" "" "json" [204, 200] ⟨200, ""⟩ rfl).1
      (Or.inl rfl)).1

/-- C7: for post, patch and put with a string payload, an omitted content type
is sniffed from the payload — after left-strip, a leading `<` means xml, else
json — so the call behaves exactly as if the sniffed content type had been
passed explicitly; and with an explicitly passed content type the negotiated
session headers are independent of the payload text (the explicit argument
wins over sniffing). -/
theorem omitted_content_type_sniffed
    (c : Client) (api_url s s' ct : String) (hd : Option (List (String × String)))
    (ex : List Nat) (resp : Response) :
    Implementation.post c api_url (.str s) none hd ex resp
      = Implementation.post c api_url (.str s)
          (some (if strStartsWith (lstrip s) "<" then "xml" else "json")) hd ex resp ∧
    Implementation.patch c api_url (.str s) none hd ex resp
      = Implementation.patch c api_url (.str s)
          (some (if strStartsWith (lstrip s) "<" then "xml" else "json")) hd ex resp ∧
    Implementation.put c api_url (.str s) none hd ex resp
      = Implementation.put c api_url (.str s)
          (some (if strStartsWith (lstrip s) "<" then "xml" else "json")) hd ex resp ∧
    (Implementation.post c api_url (.str s) (some ct) hd ex resp).client.sessionHeaders
      = (Implementation.post c api_url (.str s') (some ct) hd ex resp).client.sessionHeaders ∧
    (Implementation.patch c api_url (.str s) (some ct) hd ex resp).client.sessionHeaders
      = (Implementation.patch c api_url (.str s') (some ct) hd ex resp).client.sessionHeaders ∧
    (Implementation.put c api_url (.str s) (some ct) hd ex resp).client.sessionHeaders
      = (Implementation.put c api_url (.str s') (some ct) hd ex resp).client.sessionHeaders := by
  refine ⟨rfl, rfl, rfl, ?_, ?_, ?_⟩ <;>
    cases hcc : c._is_connected <;>
      by_cases hst : resp.status ∈ ex <;>
        simp [Implementation.post, Implementation.patch, Implementation.put,
              Client.connected, hcc, hst,
              Implementation.serializePayload, Implementation.resolveMutatingContentType]

/-- C8: post, patch and put on a connected client with a dict payload and no
content type fail immediately with the assertion error, with no header
mutation and no network request. -/
theorem dict_payload_requires_content_type
    (c : Client) (api_url : String) (d : List (String × String))
    (hd : Option (List (String × String))) (ex : List Nat) (resp : Response)
    (hc : c.connected = true) :
    Implementation.post c api_url (.dict d) none hd ex resp
      = { error := some (.assertionError "content_type parameter required when passing dict"),
          client := c, trace := [] } ∧
    Implementation.patch c api_url (.dict d) none hd ex resp
      = { error := some (.assertionError "content_type parameter required when passing dict"),
          client := c, trace := [] } ∧
    Implementation.put c api_url (.dict d) none hd ex resp
      = { error := some (.assertionError "content_type parameter required when passing dict"),
          client := c, trace := [] } := by
  have hc' : c._is_connected = true := hc
  refine ⟨?_, ?_, ?_⟩ <;>
    simp [Implementation.post, Implementation.patch, Implementation.put,
          Client.connected, hc']

/-- Witness for C8 at a concrete connected client. -/
theorem dict_payload_requires_content_type_witness :
    Implementation.post cCon "/api/running" (.dict [("a", "b")]) none none [200] ⟨200, ""⟩
      = { error := some (.assertionError "content_type parameter required when passing dict"),
          client := cCon, trace := [] } :=
  (dict_payload_requires_content_type cCon "/api/running" [("a", "b")] none [200] ⟨200, ""⟩
      rfl).1

/-- C9 counterexample: `connect` with `ip` set to `::1` builds the base URL
from the exploded IPv6 form, so the base URL is
`http://[0000:0000:0000:0000:0000:0000:0000:0001]:8080`, not the
`http://[::1]:8080` the claim states. -/
theorem ipv6_loopback_base_url_cex :
    (Implementation.connect cV6 ⟨200, ""⟩ "8080" "http" "json").client.base_url
      = "http://[0000:0000:0000:0000:0000:0000:0000:0001]:8080" ∧
    (Implementation.connect cV6 ⟨200, ""⟩ "8080" "http" "json").client.base_url
      ≠ "http://[::1]:8080" := by
  exact ⟨by decide, by decide⟩

/-- C9 (amended): when `connect` resolves the target from an IPv6 `ip` field,
the host is the exploded IPv6 form wrapped in square brackets and the base
URL is `{protocol}://{host}:{port}`; in particular `::1` yields
`http://[0000:0000:0000:0000:0000:0000:0000:0001]:8080`. -/
theorem connect_ipv6_base_url
    (c : Client) (resp : Response) (port protocol dct ipStr : String) (gs : List Nat)
    (hc : c.connected = false)
    (hhost : c.connectionInfo.host = none)
    (hip : c.connectionInfo.ip = some ipStr)
    (hparse : ip_address ipStr = some (.v6 gs)) :
    (Implementation.connect c resp port protocol dct).client.base_url
      = (c.connectionInfo.protocol.getD protocol) ++ "://"
          ++ ("[" ++ ipv6Exploded gs ++ "]") ++ ":" ++ (c.connectionInfo.port.getD port) := by
  have hc' : c._is_connected = false := hc
  have hres : Implementation.resolveHost c.connectionInfo
      = .ok ("[" ++ ipv6Exploded gs ++ "]") := by
    simp [Implementation.resolveHost, hhost, hip, hparse]
  cases hp : c.connectionInfo.protocol <;>
    cases hq : c.connectionInfo.port <;>
      by_cases hst : resp.status = 200 <;>
        simp [Implementation.connect, Client.connected, hc', hres, hp, hq, hst]

/-- Witness for C9 (amended): the concrete `::1` client. -/
theorem connect_ipv6_base_url_witness :
    (Implementation.connect cV6 ⟨200, ""⟩ "8080" "http" "json").client.base_url
      = (cV6.connectionInfo.protocol.getD "http") ++ "://"
          ++ ("[" ++ ipv6Exploded [0, 0, 0, 0, 0, 0, 0, 1] ++ "]") ++ ":"
          ++ (cV6.connectionInfo.port.getD "8080") :=
  connect_ipv6_base_url cV6 ⟨200, ""⟩ "8080" "http" "json" "::1" [0, 0, 0, 0, 0, 0, 0, 1]
    rfl rfl rfl (by decide)

/-- C10: a dict payload is serialized only on the exact lowercase content
types — `'json'` JSON-encodes it and `'xml'` XML-encodes it, for post, patch
and put — while any other explicit content-type string passes the precondition
and hands the dict to the transport unserialized, even though the Content-Type
header is still negotiated case-insensitively. -/
theorem dict_serialization_exact_lowercase
    (c : Client) (api_url ct : String) (d : List (String × String))
    (ex : List Nat) (resp : Response)
    (hc : c.connected = true) :
    (ct ≠ "json" → ct ≠ "xml" →
      (Implementation.post c api_url (.dict d) (some ct) none ex resp).trace.map
          (fun r => r.body) = [some (.dict d)] ∧
      (Implementation.patch c api_url (.dict d) (some ct) none ex resp).trace.map
          (fun r => r.body) = [some (.dict d)] ∧
      (Implementation.put c api_url (.dict d) (some ct) none ex resp).trace.map
          (fun r => r.body) = [some (.dict d)]) ∧
    (strToLower ct = "json" →
      (Implementation.post c api_url (.dict d) (some ct) none ex resp).trace.map
          (fun r => getHeader r.headers "Content-type")
        = [some (Implementation.postContentTypeStem api_url ++ "json")]) ∧
    (Implementation.post c api_url (.dict d) (some "json") none ex resp).trace.map
        (fun r => r.body) = [some (.str (jsonDumps d))] ∧
    (Implementation.post c api_url (.dict d) (some "xml") none ex resp).trace.map
        (fun r => r.body) = [some (.str (dict2xml d))] ∧
    (Implementation.patch c api_url (.dict d) (some "json") none ex resp).trace.map
        (fun r => r.body) = [some (.str (jsonDumps d))] ∧
    (Implementation.patch c api_url (.dict d) (some "xml") none ex resp).trace.map
        (fun r => r.body) = [some (.str (dict2xml d))] ∧
    (Implementation.put c api_url (.dict d) (some "json") none ex resp).trace.map
        (fun r => r.body) = [some (.str (jsonDumps d))] ∧
    (Implementation.put c api_url (.dict d) (some "xml") none ex resp).trace.map
        (fun r => r.body) = [some (.str (dict2xml d))] := by
  have hc' : c._is_connected = true := hc
  refine ⟨?_, ?_, ?_, ?_, ?_, ?_, ?_, ?_⟩
  · intro h1 h2
    have b1 : (ct == "json") = false := by simpa using h1
    have b2 : (ct == "xml") = false := by simpa using h2
    refine ⟨?_, ?_, ?_⟩ <;>
      by_cases hst : resp.status ∈ ex <;>
        simp [Implementation.post, Implementation.patch, Implementation.put,
              Client.connected, hc', hst, b1, b2,
              Implementation.serializePayload, Implementation.resolveMutatingContentType]
  · intro h
    by_cases hst : resp.status ∈ ex <;>
      simp [Implementation.post, Client.connected, hc', hst, h,
            Implementation.serializePayload, Implementation.resolveMutatingContentType,
            getHeader_content_type_after_accept]
  all_goals
    by_cases hst : resp.status ∈ ex <;>
      simp [Implementation.post, Implementation.patch, Implementation.put,
            Client.connected, hc', hst,
            Implementation.serializePayload, Implementation.resolveMutatingContentType]

/-- Witness for C10: content type `'JSON'` passes the dict through
unserialized on a concrete connected client. -/
theorem dict_serialization_exact_lowercase_witness :
    (Implementation.post cCon "/api/running" (.dict [("a", "b")]) (some "JSON") none [200]
        ⟨200, ""⟩).trace.map (fun r => r.body) = [some (.dict [("a", "b")])] :=
  ((dict_serialization_exact_lowercase cCon "/api/running" "JSON" [("a", "b")] [200] ⟨200, ""⟩
      rfl).1 (by decide) (by decide)).1

end Nso
